import Mathlib

/-!
Shallow embedding of the banking customer-support pipeline
(classifier agents, feedback and query handlers, the sqlite ticket store,
and the graph runner), with theorems checking the specification's claims.

Modelling conventions:
* Python strings are `List Char` (abbreviated `Str`); `str.lower`/`str.upper`
  act ASCII-wise (all cue words and labels in the source are ASCII).
* Clock readings (`datetime.utcnow().isoformat()`) are passed in as an
  explicit `now : Str` argument, and the stream of `random.randint(0, 999999)`
  draws as a `List Nat` argument.
* The sqlite table is a `List Ticket` in insertion order; the `PRIMARY KEY`
  constraint on `ticket_id` (from the schema, §6 of the spec) makes an
  insert of an existing id fail.
* Operations that can raise return `Except String`; the unbounded
  `while True` retry loop of `_generate_unique_ticket_id` consumes the draw
  list, an exhausted list standing for non-termination (`none`).
-/

namespace BankingSupport

abbrev Str := List Char

/-- Whitespace characters removed by Python `str.strip` (ASCII subset). -/
def isPySpace (c : Char) : Bool :=
  c == ' ' || c == '\t' || c == '\n' || c == '\r' || c == Char.ofNat 11 || c == Char.ofNat 12

/-- Python `s.strip()`: drop whitespace at both ends. -/
def strip (s : Str) : Str :=
  ((s.dropWhile isPySpace).reverse.dropWhile isPySpace).reverse

/-- Python substring test `pat in text`. -/
def containsSub : Str → Str → Bool
  | [], pat => pat.isEmpty
  | c :: t, pat => pat.isPrefixOf (c :: t) || containsSub t pat

/-- Python `s.lower()` (ASCII). -/
def lowerStr (s : Str) : Str := s.map Char.toLower

/-- Python `s.upper()` (ASCII). -/
def upperStr (s : Str) : Str := s.map Char.toUpper

/-- The three classification labels (module-level constants in both
classifier modules, imported by the agents). -/
def POSITIVE_FEEDBACK : Str := "POSITIVE_FEEDBACK".toList

def NEGATIVE_FEEDBACK : Str := "NEGATIVE_FEEDBACK".toList

def QUERY : Str := "QUERY".toList

/-! ## `agents/classifier_agent.py` (LLM-backed, heuristic fallback) -/

namespace ClassifierAgent

/-- `_contains_any(text, keywords)`: any keyword a substring of `text.lower()`. -/
def _contains_any (text : Str) (keywords : List Str) : Bool :=
  keywords.any (fun k => containsSub (lowerStr text) k)

def question_words : List Str :=
  ["how", "when", "what", "where", "why", "status", "ticket", "help",
   "can you", "could you"].map String.toList

def negative_words : List Str :=
  ["not happy", "unhappy", "angry", "bad", "worst", "terrible", "horrible",
   "complain", "complaint", "issue", "problem", "frustrated", "disappointed",
   "did not work", "didn't work", "didnt work", "money deducted",
   "debited but"].map String.toList

def positive_words : List Str :=
  ["thank you", "thanks", "great", "awesome", "good service", "well done",
   "happy", "satisfied", "love the service"].map String.toList

/-- `heuristic_classify(message)`: question cues, then negative cues, then
positive cues, then `QUERY` as default. -/
def heuristic_classify (message : Str) : Str :=
  let msg := strip message
  if containsSub msg ("?".toList) || _contains_any msg question_words then QUERY
  else if _contains_any msg negative_words then NEGATIVE_FEEDBACK
  else if _contains_any msg positive_words then POSITIVE_FEEDBACK
  else QUERY

/-- `_normalize_label(text)`: map the raw model output to one of the three
canonical labels, or `None`. -/
def _normalize_label (text : Str) : Option Str :=
  if text.isEmpty then none
  else
    let t := upperStr (strip text)
    if t == POSITIVE_FEEDBACK then some POSITIVE_FEEDBACK
    else if t == NEGATIVE_FEEDBACK then some NEGATIVE_FEEDBACK
    else if t == QUERY then some QUERY
    else
      let t_clean := t.filter (fun c => ('A' ≤ c && c ≤ 'Z') || c == '_')
      if t_clean == ("POSITIVEFEEDBACK".toList) || t_clean == POSITIVE_FEEDBACK ||
         t_clean == ("POSITIVE".toList) || t_clean == ("THANKS".toList) then
        some POSITIVE_FEEDBACK
      else if t_clean == ("NEGATIVEFEEDBACK".toList) || t_clean == NEGATIVE_FEEDBACK ||
              t_clean == ("NEGATIVE".toList) || t_clean == ("COMPLAINT".toList) ||
              t_clean == ("COMPLAIN".toList) then
        some NEGATIVE_FEEDBACK
      else if t_clean == QUERY || t_clean == ("QUESTION".toList) ||
              t_clean == ("STATUS".toList) || t_clean == ("TICKET".toList) then
        some QUERY
      else
        let t_lower := lowerStr t
        if ["thank", "thanks", "great", "good", "happy", "satisfied"].any
             (fun k => containsSub t_lower k.toList) then
          some POSITIVE_FEEDBACK
        else if ["not", "unhappy", "angry", "complain", "debit", "issue", "problem",
                 "frustrat"].any (fun k => containsSub t_lower k.toList) then
          some NEGATIVE_FEEDBACK
        else if ["?", "how", "what", "when", "status", "ticket", "help"].any
                  (fun k => containsSub t_lower k.toList) then
          some QUERY
        else none

/-- `classify_message(message, use_llm)`.  `llmRaw` is what
`_call_openai_chat` returned (`None` on failure; the call itself is an
external network effect). -/
def classify_message (llmRaw : Option Str) (message : Str) (use_llm : Bool) : Str :=
  let message := strip message
  if message.isEmpty then QUERY
  else if !use_llm then heuristic_classify message
  else
    match llmRaw with
    | some raw =>
      if raw.isEmpty then heuristic_classify message
      else
        match _normalize_label raw with
        | some label => label
        | none => heuristic_classify message
    | none => heuristic_classify message

end ClassifierAgent

/-! ## `agents/classifier_agent_wo_llm.py` (heuristic-only module) -/

namespace ClassifierAgentWoLlm

def _contains_any (text : Str) (keywords : List Str) : Bool :=
  keywords.any (fun k => containsSub (lowerStr text) k)

def question_words : List Str :=
  ["how", "when", "what", "where", "why", "status", "ticket", "help",
   "can you", "could you"].map String.toList

def negative_words : List Str :=
  ["not happy", "unhappy", "angry", "bad", "worst", "terrible", "horrible",
   "complain", "complaint", "issue", "problem", "frustrated", "disappointed",
   "did not work", "didn't work", "didnt work", "money deducted",
   "debited but"].map String.toList

def positive_words : List Str :=
  ["thank you", "thanks", "great", "awesome", "good service", "well done",
   "happy", "satisfied", "love the service"].map String.toList

/-- `classify_message(message)` of the heuristic-only module. -/
def classify_message (message : Str) : Str :=
  let msg := strip message
  if containsSub msg ("?".toList) || _contains_any msg question_words then QUERY
  else if _contains_any msg negative_words then NEGATIVE_FEEDBACK
  else if _contains_any msg positive_words then POSITIVE_FEEDBACK
  else QUERY

end ClassifierAgentWoLlm

/-! ## `db/db_utils.py` -/

/-- One row of the `support_tickets` table. -/
structure Ticket where
  ticket_id : Str
  customer_name : Option Str
  message : Str
  status : Str
  created_at : Str
  updated_at : Str
  correlation_id : Option Str
deriving DecidableEq, Repr

/-- The table, in insertion order. -/
abbrev Store := List Ticket

/-- `SELECT ... WHERE ticket_id = ?` + `fetchone()`: the first matching row. -/
def getTicketRow (store : Store) (tid : Str) : Option Ticket :=
  store.find? (fun t => t.ticket_id == tid)

/-- The dict built from the row `get_ticket` selects: exactly the six
columns named in its SELECT list, in that order. -/
def ticketDict (t : Ticket) : List (String × Option Str) :=
  [("ticket_id", some t.ticket_id), ("customer_name", t.customer_name),
   ("message", some t.message), ("status", some t.status),
   ("created_at", some t.created_at), ("updated_at", some t.updated_at)]

/-- `get_ticket(ticket_id)`: the selected columns as a dict, or `None`. -/
def get_ticket (store : Store) (tid : Str) : Option (List (String × Option Str)) :=
  (getTicketRow store tid).map ticketDict

/-- `create_ticket(ticket_id, message, customer_name, correlation_id)`:
INSERT a row with status `"Open"` and both timestamps `now`.  The
`PRIMARY KEY` constraint on `ticket_id` comes from the table schema
(spec §6, `schema.sql`): inserting an existing id raises
`sqlite3.IntegrityError`. -/
def create_ticket (store : Store) (ticket_id message : Str)
    (customer_name correlation_id : Option Str) (now : Str) : Except String Store :=
  if (getTicketRow store ticket_id).isSome then
    .error "IntegrityError"
  else
    .ok (store ++ [{ ticket_id, customer_name, message, status := "Open".toList,
                     created_at := now, updated_at := now, correlation_id }])

/-- `update_ticket_status(ticket_id, new_status)`: a SQL UPDATE sets
`status` and `updated_at` on every row whose `ticket_id` matches; a WHERE
clause matching no row is not an error — the statement completes normally. -/
def update_ticket_status (store : Store) (ticket_id new_status : Str) (now : Str) :
    Except String Store :=
  .ok (store.map fun t =>
    if t.ticket_id == ticket_id then
      { t with status := new_status, updated_at := now }
    else t)

/-! ## `agents/feedback_agent.py` -/

def digitChar (n : Nat) : Char := Char.ofNat (48 + n)

/-- Python `f"{n:06d}"` on the range `random.randint(0, 999999)` produces:
six decimal digits, left-zero-padded. -/
def pad6 (n : Nat) : Str :=
  [digitChar (n / 100000 % 10), digitChar (n / 10000 % 10), digitChar (n / 1000 % 10),
   digitChar (n / 100 % 10), digitChar (n / 10 % 10), digitChar (n % 10)]

/-- `_generate_unique_ticket_id()`: draw, check via `get_ticket`, repeat
until fresh.  `draws` is the stream of random draws; running out of it
models the loop never finding a fresh id. -/
def _generate_unique_ticket_id (store : Store) : List Nat → Option Str
  | [] => none
  | d :: rest =>
    let ticket_id := pad6 d
    if (get_ticket store ticket_id).isSome then _generate_unique_ticket_id store rest
    else some ticket_id

structure FeedbackOut where
  reply : Str
  ticket_id : Option Str
  sentiment : Str
deriving DecidableEq, Repr

def positiveReply (customer_display : Str) : Str :=
  "Thank you for your kind feedback, ".toList ++ customer_display ++
  "! We really appreciate you taking the time to share this with us.".toList

def negativeReply (customer_display ticket_id : Str) : Str :=
  "We're really sorry to hear about your experience, ".toList ++ customer_display ++
  ". I've created a support ticket for you: #".toList ++ ticket_id ++
  ". Our team will review this and get back to you as soon as possible.".toList

def genericReply : Str := "Thank you for your message.".toList

/-- `handle_feedback(message, sentiment, customer_name, correlation_id)`.
Outer `none` = the id-generation loop did not terminate on the supplied
draws; `.error` = an exception propagating out of `create_ticket`. -/
def handle_feedback (store : Store) (draws : List Nat) (now : Str)
    (message sentiment : Str) (customer_name correlation_id : Option Str) :
    Option (Except String (FeedbackOut × Store)) :=
  let customer_display := customer_name.getD ("Valued Customer".toList)
  if sentiment == POSITIVE_FEEDBACK then
    some (.ok ({ reply := positiveReply customer_display, ticket_id := none, sentiment }, store))
  else if sentiment == NEGATIVE_FEEDBACK then
    match _generate_unique_ticket_id store draws with
    | none => none
    | some ticket_id =>
      match create_ticket store ticket_id message customer_name correlation_id now with
      | .error e => some (.error e)
      | .ok store' =>
        some (.ok ({ reply := negativeReply customer_display ticket_id,
                     ticket_id := some ticket_id, sentiment }, store'))
  else
    some (.ok ({ reply := genericReply, ticket_id := none, sentiment }, store))

/-! ## `agents/query_agent.py` -/

/-- `\w` of Python `re` (ASCII part): letters, digits, underscore. -/
def isWordChar (c : Char) : Bool := c.isAlphanum || c == '_'

/-- The pattern `\d{6}\b` matching at the head of `l`: six decimal digits
not followed by a word character. -/
def sixDigitRunAt (l : Str) : Bool :=
  (l.take 6).length == 6 && (l.take 6).all Char.isDigit &&
    (match l.drop 6 with
     | [] => true
     | c :: _ => !isWordChar c)

/-- The `\b` before position `i`: start of string, or a non-word character
at `i - 1` (position `i` holds a digit when this is consulted). -/
def boundaryBefore (message : Str) (i : Nat) : Bool :=
  match (message.take i).getLast? with
  | none => true
  | some c => !isWordChar c

/-- `\b(\d{6})\b` matches `message` at position `i`. -/
def matchesAt (message : Str) (i : Nat) : Bool :=
  boundaryBefore message i && sixDigitRunAt (message.drop i)

/-- `_extract_ticket_id(message)` = `TICKET_PATTERN.search(message)`:
`re.search` scans positions left to right and returns the group of the
first position where the pattern matches. -/
def _extract_ticket_id (message : Str) : Option Str :=
  match (List.range message.length).find? (matchesAt message) with
  | some i => some ((message.drop i).take 6)
  | none => none

structure QueryOut where
  reply : Str
  ticket_id : Option Str
  found : Bool
deriving DecidableEq, Repr

def noTicketReply : Str :=
  ("I couldn't find a ticket number in your message. " ++
   "Please share your 6-digit ticket ID so I can check the status for you.").toList

def notFoundReply (ticket_id : Str) : Str :=
  "I couldn't find any ticket with ID #".toList ++ ticket_id ++
  ". Please verify the number and try again.".toList

def statusReply (ticket_id status : Str) : Str :=
  "Your ticket #".toList ++ ticket_id ++ " is currently marked as: ".toList ++
  status ++ ".".toList

def noTicketResult : QueryOut :=
  { reply := noTicketReply, ticket_id := none, found := false }

/-- `ticket["status"]` on the dict `get_ticket` returns (always present
and non-NULL there; other cases are unreachable and mapped to `[]`). -/
def dictStatus (row : List (String × Option Str)) : Str :=
  match (row.find? (fun p => p.1 == "status")).map Prod.snd with
  | some (some s) => s
  | _ => []

/-- `handle_query(message, correlation_id)`. -/
def handle_query (store : Store) (message : Str) : QueryOut :=
  match _extract_ticket_id message with
  | none => noTicketResult
  | some ticket_id =>
    if ticket_id.isEmpty then noTicketResult
    else
      match get_ticket store ticket_id with
      | none => { reply := notFoundReply ticket_id, ticket_id := some ticket_id, found := false }
      | some row => { reply := statusReply ticket_id (dictStatus row),
                      ticket_id := some ticket_id, found := true }

/-! ## `langgraph_impl.py` -/

/-- The final graph state of one `run_support_graph` call: the initial
keys plus those merged in by the classifier node and the handler node. -/
structure SupportResult where
  message : Str
  customer_name : Option Str
  correlation_id : Str
  classification : Str
  handled_by : Str
  ticket_id : Option Str
  reply : Str
  processed_at : Str
deriving DecidableEq, Repr

/-- `run_support_graph(message, customer_name)`: fresh correlation id from
`uuid4`, classifier node, conditional edge (`route_after_classification`),
handler node stamping `processed_at`.  `llmRaw`, `draws`, `now` are the
external effects (remote classifier response, random draws, clock). -/
def run_support_graph (llmRaw : Option Str) (draws : List Nat) (uuid4 now : Str)
    (store : Store) (message : Str) (customer_name : Option Str) :
    Option (Except String (SupportResult × Store)) :=
  let correlation_id := "cs-".toList ++ uuid4
  let classification := ClassifierAgent.classify_message llmRaw message true
  if classification == POSITIVE_FEEDBACK || classification == NEGATIVE_FEEDBACK then
    match handle_feedback store draws now message classification customer_name
        (some correlation_id) with
    | none => none
    | some (.error e) => some (.error e)
    | some (.ok (out, store')) =>
      some (.ok ({ message, customer_name, correlation_id, classification,
                   handled_by := "FeedbackAgent".toList, ticket_id := out.ticket_id,
                   reply := out.reply, processed_at := now }, store'))
  else
    let out := handle_query store message
    some (.ok ({ message, customer_name, correlation_id, classification,
                 handled_by := "QueryAgent".toList, ticket_id := out.ticket_id,
                 reply := out.reply, processed_at := now }, store))

/-! ## Helper lemmas: strings -/

/-- `containsSub` decides the infix relation. -/
lemma containsSub_eq_true_iff (t p : Str) : containsSub t p = true ↔ p <:+: t := by
  induction t with
  | nil =>
    simp [containsSub, List.isEmpty_iff]
  | cons c rest ih =>
    simp [containsSub, ih, List.infix_cons_iff, List.isPrefixOf_iff_prefix]

lemma containsSub_singleton_of_mem {a : Char} {l : Str} (h : a ∈ l) :
    containsSub l [a] = true := by
  rw [containsSub_eq_true_iff]
  obtain ⟨s, t, rfl⟩ := List.append_of_mem h
  exact ⟨s, t, by simp⟩

lemma containsSub_sandwich (x p y : Str) : containsSub (x ++ p ++ y) p = true := by
  rw [containsSub_eq_true_iff]
  exact ⟨x, y, rfl⟩

lemma strip_eq_rdropWhile (s : Str) :
    strip s = List.rdropWhile isPySpace (s.dropWhile isPySpace) := rfl

lemma strip_idem (s : Str) : strip (strip s) = strip s := by
  have hA : (strip s).dropWhile isPySpace = strip s := by
    rcases h : strip s with _ | ⟨c, rest⟩
    · simp
    · have hpre : strip s <+: s.dropWhile isPySpace := by
        rw [strip_eq_rdropWhile]
        exact List.rdropWhile_prefix _ _
      rw [h] at hpre
      obtain ⟨r, hr⟩ := hpre
      have hc : (s.dropWhile isPySpace).head? = some c := by
        rw [← hr]
        rfl
      have hcfalse : isPySpace c = false := by
        have h2 := List.head?_dropWhile_not isPySpace s
        rw [hc] at h2
        exact h2
      simp [List.dropWhile_cons, hcfalse]
  calc strip (strip s)
      = List.rdropWhile isPySpace ((strip s).dropWhile isPySpace) := rfl
    _ = List.rdropWhile isPySpace (strip s) := by rw [hA]
    _ = List.rdropWhile isPySpace
          (List.rdropWhile isPySpace (s.dropWhile isPySpace)) := rfl
    _ = List.rdropWhile isPySpace (s.dropWhile isPySpace) :=
        List.rdropWhile_idempotent _ _
    _ = strip s := rfl

/-! ## Helper lemmas: leftmost search over positions -/

lemma find?_range_none {p : Nat → Bool} {n : Nat}
    (h : (List.range n).find? p = none) : ∀ j < n, p j = false := by
  intro j hj
  have := List.find?_eq_none.mp h j (List.mem_range.mpr hj)
  simpa using this

lemma find?_range_some {p : Nat → Bool} :
    ∀ {n i : Nat}, (List.range n).find? p = some i →
      p i = true ∧ ∀ j < i, p j = false := by
  intro n
  induction n with
  | zero => intro i h; simp at h
  | succ n ih =>
    intro i h
    rw [List.range_succ, List.find?_append] at h
    cases h0 : (List.range n).find? p with
    | some j =>
      rw [h0] at h
      simp only [Option.or_some] at h
      cases h
      exact ih h0
    | none =>
      rw [h0] at h
      simp only [Option.none_or] at h
      by_cases hp : p n = true
      · rw [List.find?_cons_of_pos _ hp] at h
        cases h
        exact ⟨hp, find?_range_none h0⟩
      · rw [List.find?_cons_of_neg _ (by simp [hp])] at h
        simp at h

lemma matchesAt_lt_length {message : Str} {i : Nat} (h : matchesAt message i = true) :
    i < message.length := by
  have h6 : ((message.drop i).take 6).length = 6 := by
    simp only [matchesAt, sixDigitRunAt, Bool.and_eq_true, beq_iff_eq] at h
    exact h.2.1.1
  rw [List.length_take, List.length_drop] at h6
  omega

lemma extract_none_of_no_match {message : Str}
    (h : ∀ i < message.length, matchesAt message i = false) :
    _extract_ticket_id message = none := by
  unfold _extract_ticket_id
  have hn : (List.range message.length).find? (matchesAt message) = none := by
    rw [List.find?_eq_none]
    intro i hi
    rw [h i (List.mem_range.mp hi)]
    simp
  rw [hn]

lemma extract_some_of_first_match {message : Str} {i : Nat}
    (hi : matchesAt message i = true) (hmin : ∀ j < i, matchesAt message j = false) :
    _extract_ticket_id message = some ((message.drop i).take 6) := by
  unfold _extract_ticket_id
  cases h : (List.range message.length).find? (matchesAt message) with
  | none =>
    have := find?_range_none h i (matchesAt_lt_length hi)
    rw [hi] at this
    cases this
  | some j =>
    obtain ⟨hp, hfirst⟩ := find?_range_some h
    have hij : j = i := by
      rcases Nat.lt_trichotomy j i with hlt | heq | hgt
      · rw [hmin j hlt] at hp; cases hp
      · exact heq
      · rw [hfirst i hgt] at hi; cases hi
    rw [hij]

/-! ## Helper lemmas: ticket store -/

lemma getTicketRow_create {store : Store} {tid msg now : Str} {cn cid : Option Str}
    {store' : Store}
    (h : create_ticket store tid msg cn cid now = .ok store') :
    getTicketRow store tid = none ∧
    store' = store ++ [{ ticket_id := tid, customer_name := cn, message := msg,
                         status := "Open".toList, created_at := now, updated_at := now,
                         correlation_id := cid }] := by
  unfold create_ticket at h
  split at h
  · cases h
  · rename_i hns
    cases h
    refine ⟨?_, rfl⟩
    cases hh : getTicketRow store tid with
    | none => rfl
    | some t => rw [hh] at hns; simp at hns

lemma create_ticket_of_fresh {store : Store} {tid : Str} (msg now : Str) (cn cid : Option Str)
    (h : getTicketRow store tid = none) :
    create_ticket store tid msg cn cid now =
      .ok (store ++ [{ ticket_id := tid, customer_name := cn, message := msg,
                       status := "Open".toList, created_at := now, updated_at := now,
                       correlation_id := cid }]) := by
  unfold create_ticket
  rw [h]
  rfl

lemma getTicketRow_append_fresh {store : Store} {tid : Str} {t : Ticket}
    (h : getTicketRow store tid = none) (ht : t.ticket_id = tid) :
    getTicketRow (store ++ [t]) tid = some t := by
  unfold getTicketRow at h ⊢
  rw [List.find?_append, h, Option.none_or]
  rw [List.find?_cons_of_pos]
  simp [ht]

lemma map_update_of_none {tid st now : Str} {store : Store}
    (h : getTicketRow store tid = none) :
    (store.map fun t =>
      if t.ticket_id == tid then { t with status := st, updated_at := now } else t) = store := by
  have hall := List.find?_eq_none.mp h
  have : ∀ t ∈ store,
      (if t.ticket_id == tid then { t with status := st, updated_at := now } else t) = t := by
    intro t ht
    have := hall t ht
    simp only [Bool.not_eq_true] at this
    simp [this]
  calc store.map _ = store.map id := List.map_congr_left this
    _ = store := List.map_id store

lemma find?_map_update {f : Ticket → Ticket} {q : Ticket → Bool}
    (hq : ∀ x, q (f x) = q x) :
    ∀ {l : List Ticket} {t : Ticket}, l.find? q = some t → (l.map f).find? q = some (f t) := by
  intro l
  induction l with
  | nil => intro t h; cases h
  | cons a rest ih =>
    intro t h
    by_cases ha : q a = true
    · rw [List.find?_cons_of_pos _ ha] at h
      cases h
      rw [List.map_cons, List.find?_cons_of_pos _ (by rw [hq]; exact ha)]
    · rw [List.find?_cons_of_neg _ (by simp [ha])] at h
      rw [List.map_cons, List.find?_cons_of_neg _ (by simp [hq, ha])]
      exact ih h

/-! ## Helper lemmas: ticket-id generation and the feedback handler -/

lemma isDigit_digitChar {k : Nat} (h : k < 10) : (digitChar k).isDigit = true := by
  interval_cases k <;> decide

lemma pad6_length (n : Nat) : (pad6 n).length = 6 := rfl

lemma pad6_all_digits (n : Nat) : (pad6 n).all Char.isDigit = true := by
  simp only [pad6, List.all_cons, List.all_nil, Bool.and_eq_true, and_true]
  refine ⟨?_, ?_, ?_, ?_, ?_, ?_⟩ <;> exact isDigit_digitChar (Nat.mod_lt _ (by omega))

lemma generate_spec {store : Store} :
    ∀ {draws : List Nat} {tid : Str},
      _generate_unique_ticket_id store draws = some tid →
      get_ticket store tid = none ∧ ∃ d ∈ draws, tid = pad6 d := by
  intro draws
  induction draws with
  | nil => intro tid h; cases h
  | cons d rest ih =>
    intro tid h
    unfold _generate_unique_ticket_id at h
    dsimp only at h
    split at h
    · obtain ⟨h1, d', hd', h2⟩ := ih h
      exact ⟨h1, d', List.mem_cons_of_mem _ hd', h2⟩
    · rename_i hns
      cases h
      refine ⟨?_, d, List.mem_cons_self _ _, rfl⟩
      cases hg : get_ticket store (pad6 d) with
      | none => rfl
      | some r => rw [hg] at hns; simp at hns

lemma getTicketRow_of_generate {store : Store} {draws : List Nat} {tid : Str}
    (h : _generate_unique_ticket_id store draws = some tid) :
    getTicketRow store tid = none := by
  have := (generate_spec h).1
  unfold get_ticket at this
  exact Option.map_eq_none.mp this

/-- The NEGATIVE_FEEDBACK path of `handle_feedback`, given that the
id-generation loop terminates with `tid`. -/
lemma handle_feedback_negative_spec {store : Store} {draws : List Nat}
    {now message tid : Str} {cn cid : Option Str}
    (hgen : _generate_unique_ticket_id store draws = some tid) :
    handle_feedback store draws now message NEGATIVE_FEEDBACK cn cid =
      some (.ok ({ reply := negativeReply (cn.getD ("Valued Customer".toList)) tid,
                   ticket_id := some tid, sentiment := NEGATIVE_FEEDBACK },
                 store ++ [{ ticket_id := tid, customer_name := cn, message := message,
                             status := "Open".toList, created_at := now, updated_at := now,
                             correlation_id := cid }])) := by
  have hrow : getTicketRow store tid = none := getTicketRow_of_generate hgen
  unfold handle_feedback
  rw [if_neg (by decide), if_pos (by decide)]
  rw [hgen]
  simp only [create_ticket_of_fresh message now cn cid hrow]

/-! ## Helper lemmas: classifier totality -/

lemma heuristic_mem (m : Str) :
    ClassifierAgent.heuristic_classify m = POSITIVE_FEEDBACK ∨
    ClassifierAgent.heuristic_classify m = NEGATIVE_FEEDBACK ∨
    ClassifierAgent.heuristic_classify m = QUERY := by
  simp only [ClassifierAgent.heuristic_classify]
  split
  · right; right; rfl
  · split
    · right; left; rfl
    · split
      · left; rfl
      · right; right; rfl

lemma normalize_mem {t lbl : Str} (h : ClassifierAgent._normalize_label t = some lbl) :
    lbl = POSITIVE_FEEDBACK ∨ lbl = NEGATIVE_FEEDBACK ∨ lbl = QUERY := by
  simp only [ClassifierAgent._normalize_label] at h
  repeat' split at h
  all_goals simp_all

lemma classify_mem (llmRaw : Option Str) (message : Str) (use_llm : Bool) :
    ClassifierAgent.classify_message llmRaw message use_llm = POSITIVE_FEEDBACK ∨
    ClassifierAgent.classify_message llmRaw message use_llm = NEGATIVE_FEEDBACK ∨
    ClassifierAgent.classify_message llmRaw message use_llm = QUERY := by
  simp only [ClassifierAgent.classify_message]
  split
  · right; right; rfl
  · split
    · exact heuristic_mem _
    · cases llmRaw with
      | none => exact heuristic_mem _
      | some raw =>
        dsimp only
        split
        · exact heuristic_mem _
        · cases hn : ClassifierAgent._normalize_label raw with
          | none => exact heuristic_mem _
          | some lbl => exact normalize_mem hn

lemma classify_empty {llmRaw : Option Str} {message : Str} {use_llm : Bool}
    (h : strip message = []) :
    ClassifierAgent.classify_message llmRaw message use_llm = QUERY := by
  simp [ClassifierAgent.classify_message, h]

/-! ## Claim theorems -/

/-- C1 (counterexample): on an absent ticket_id the update operation does
NOT signal `NotFound` — the UPDATE completes normally (`.ok`), leaving the
empty store unchanged. -/
theorem update_status_counterexample :
    update_ticket_status [] ("000001".toList) ("Closed".toList)
      ("2026-01-01T00:00:00".toList) = .ok [] := rfl

/-- C1 (amended): `update_ticket_status` never signals `NotFound`.  On an
absent ticket_id it completes normally and leaves the store unchanged (no
record is created); on a present ticket_id it completes normally, sets
that ticket's status to the new value and refreshes `updated_at`. -/
theorem update_status_amended (store : Store) (tid st now : Str) :
    (getTicketRow store tid = none →
       update_ticket_status store tid st now = .ok store) ∧
    (∀ t, getTicketRow store tid = some t →
       ∃ store', update_ticket_status store tid st now = .ok store' ∧
         getTicketRow store' tid = some { t with status := st, updated_at := now }) := by
  constructor
  · intro h
    unfold update_ticket_status
    rw [map_update_of_none h]
  · intro t h
    refine ⟨_, rfl, ?_⟩
    unfold getTicketRow at h
    have hqt : (t.ticket_id == tid) = true := by
      have h2 := List.find?_some h
      exact h2
    have hq : ∀ x : Ticket,
        ((if x.ticket_id == tid then { x with status := st, updated_at := now } else x).ticket_id
          == tid) = (x.ticket_id == tid) := by
      intro x
      by_cases hx : (x.ticket_id == tid) = true <;> simp [hx]
    have := find?_map_update hq h
    unfold getTicketRow
    rw [this, if_pos hqt]

/-- C1 (amended) at a concrete input: absent id `"000001"` on the empty
store, and present id `"123456"` on a one-ticket store. -/
theorem update_status_amended_witness :
    update_ticket_status [] ("000001".toList) ("Closed".toList) ("T1".toList) = .ok [] ∧
    ∃ store', update_ticket_status
        [{ ticket_id := "123456".toList, customer_name := none, message := "m".toList,
           status := "Open".toList, created_at := "T0".toList, updated_at := "T0".toList,
           correlation_id := none }]
        ("123456".toList) ("Closed".toList) ("T1".toList) = .ok store' ∧
      getTicketRow store' ("123456".toList) = some
        { ticket_id := "123456".toList, customer_name := none, message := "m".toList,
          status := "Closed".toList, created_at := "T0".toList, updated_at := "T1".toList,
          correlation_id := none } :=
  ⟨(update_status_amended [] ("000001".toList) ("Closed".toList) ("T1".toList)).1 rfl,
   (update_status_amended _ ("123456".toList) ("Closed".toList) ("T1".toList)).2
     { ticket_id := "123456".toList, customer_name := none, message := "m".toList,
       status := "Open".toList, created_at := "T0".toList, updated_at := "T0".toList,
       correlation_id := none } rfl⟩

/-- C2: `classify_message` always returns one of the three labels, for any
message, any remote response and either value of `use_llm`; an
all-whitespace message yields `QUERY`. -/
theorem classify_message_total (llmRaw : Option Str) (message : Str) (use_llm : Bool) :
    (ClassifierAgent.classify_message llmRaw message use_llm = POSITIVE_FEEDBACK ∨
     ClassifierAgent.classify_message llmRaw message use_llm = NEGATIVE_FEEDBACK ∨
     ClassifierAgent.classify_message llmRaw message use_llm = QUERY) ∧
    (strip message = [] →
     ClassifierAgent.classify_message llmRaw message use_llm = QUERY) :=
  ⟨classify_mem llmRaw message use_llm, fun h => classify_empty h⟩

/-- C2 at concrete inputs: the empty (all-whitespace) message returns
`QUERY`. -/
theorem classify_message_total_witness :
    ClassifierAgent.classify_message none ("   ".toList) true = QUERY :=
  (classify_message_total none ("   ".toList) true).2 (by decide)

/-- C5: any message containing `?` (after trimming) is classified `QUERY`
by the heuristic, whatever sentiment cues it also contains. -/
theorem question_mark_forces_query (message : Str) (h : '?' ∈ strip message) :
    ClassifierAgent.heuristic_classify message = QUERY := by
  have hc : containsSub (strip message) ['?'] = true :=
    containsSub_singleton_of_mem h
  simp [ClassifierAgent.heuristic_classify, hc]

/-- C5 at a concrete input: negative cue words are present but `?` wins. -/
theorem question_mark_forces_query_witness :
    ClassifierAgent.heuristic_classify ("I am angry and unhappy, are you there?".toList) = QUERY :=
  question_mark_forces_query _ (by decide)

/-- C8 (counterexample): on an unrecognized sentiment value the feedback
handler does NOT raise — it returns normally with the generic reply. -/
theorem handle_feedback_unknown_counterexample :
    handle_feedback [] [] ("T0".toList) ("hello".toList) ("SOMETHING_ELSE".toList) none none =
      some (.ok ({ reply := genericReply, ticket_id := none,
                   sentiment := "SOMETHING_ELSE".toList }, [])) := rfl

/-- C8 (amended): for every sentiment value other than POSITIVE_FEEDBACK
and NEGATIVE_FEEDBACK, the feedback handler silently returns the generic
reply `"Thank you for your message."` with no ticket and an unchanged
store, instead of failing loudly. -/
theorem handle_feedback_unknown_sentiment (store : Store) (draws : List Nat)
    (now message sentiment : Str) (cn cid : Option Str)
    (h1 : sentiment ≠ POSITIVE_FEEDBACK) (h2 : sentiment ≠ NEGATIVE_FEEDBACK) :
    handle_feedback store draws now message sentiment cn cid =
      some (.ok ({ reply := genericReply, ticket_id := none, sentiment }, store)) := by
  unfold handle_feedback
  rw [if_neg (by simpa using h1), if_neg (by simpa using h2)]

/-- C8 (amended) at a concrete input. -/
theorem handle_feedback_unknown_sentiment_witness :
    handle_feedback [] [] ("T0".toList) ("hi".toList) ("NEUTRAL".toList) none none =
      some (.ok ({ reply := genericReply, ticket_id := none,
                   sentiment := "NEUTRAL".toList }, [])) :=
  handle_feedback_unknown_sentiment [] [] ("T0".toList) ("hi".toList) ("NEUTRAL".toList)
    none none (by decide) (by decide)

/-- C10: on messages with non-whitespace content the heuristic-only
module's `classify_message`, the LLM module's `heuristic_classify`, and
the LLM module's `classify_message` with `use_llm=False` all agree. -/
theorem classifier_implementations_agree (llmRaw : Option Str) (message : Str)
    (h : strip message ≠ []) :
    ClassifierAgentWoLlm.classify_message message =
      ClassifierAgent.heuristic_classify message ∧
    ClassifierAgent.classify_message llmRaw message false =
      ClassifierAgent.heuristic_classify message := by
  constructor
  · rfl
  · have h' : (strip message).isEmpty = false := by
      simpa [List.isEmpty_iff] using h
    simp only [ClassifierAgent.classify_message, h', Bool.false_eq_true, if_false,
      Bool.not_false, if_true]
    simp only [ClassifierAgent.heuristic_classify]
    rw [strip_idem]

/-- C10 at a concrete input. -/
theorem classifier_implementations_agree_witness :
    ClassifierAgentWoLlm.classify_message ("Thanks for everything".toList) =
      ClassifierAgent.heuristic_classify ("Thanks for everything".toList) ∧
    ClassifierAgent.classify_message none ("Thanks for everything".toList) false =
      ClassifierAgent.heuristic_classify ("Thanks for everything".toList) :=
  classifier_implementations_agree none ("Thanks for everything".toList) (by decide)

/-- C4: any id the generation loop returns is a 6-digit zero-padded
decimal string absent from the store at that moment, and every successful
`create_ticket` preserves pairwise distinctness of the stored ids. -/
theorem ticket_id_generation_unique (store : Store) (draws : List Nat) (tid : Str)
    (hb : ∀ d ∈ draws, d < 1000000)
    (hgen : _generate_unique_ticket_id store draws = some tid) :
    (tid.length = 6 ∧ tid.all Char.isDigit = true ∧ get_ticket store tid = none) ∧
    (∀ (s : Store) (tid2 msg now : Str) (cn cid : Option Str) (s' : Store),
       (s.map Ticket.ticket_id).Nodup →
       create_ticket s tid2 msg cn cid now = .ok s' →
       (s'.map Ticket.ticket_id).Nodup) := by
  obtain ⟨hfree, d, hd, rfl⟩ := generate_spec hgen
  refine ⟨⟨pad6_length d, pad6_all_digits d, hfree⟩, ?_⟩
  intro s tid2 msg now cn cid s' hnd hcr
  obtain ⟨habs, rfl⟩ := getTicketRow_create hcr
  rw [List.map_append]
  rw [List.nodup_append]
  refine ⟨hnd, List.nodup_singleton _, ?_⟩
  intro x hx1 hx2
  simp only [List.map_cons, List.map_nil, List.mem_singleton] at hx2
  subst hx2
  obtain ⟨u, hu, hux⟩ := List.mem_map.mp hx1
  have := List.find?_eq_none.mp habs u hu
  simp only [Bool.not_eq_true, beq_eq_false_iff_ne, ne_eq] at this
  exact this hux

/-- C4 at a concrete input. -/
theorem ticket_id_generation_unique_witness :
    ((pad6 123456).length = 6 ∧ (pad6 123456).all Char.isDigit = true ∧
      get_ticket [] (pad6 123456) = none) ∧
    (∀ (s : Store) (tid2 msg now : Str) (cn cid : Option Str) (s' : Store),
       (s.map Ticket.ticket_id).Nodup →
       create_ticket s tid2 msg cn cid now = .ok s' →
       (s'.map Ticket.ticket_id).Nodup) :=
  ticket_id_generation_unique [] [123456] (pad6 123456) (by decide) rfl

/-- C6: for NEGATIVE_FEEDBACK the handler appends exactly one new ticket
with status `"Open"` and the original message text, returns its 6-digit id
as `ticket_id`, and the reply embeds that id. -/
theorem handle_feedback_negative_creates_ticket (store : Store) (draws : List Nat)
    (now message tid : Str) (cn cid : Option Str)
    (hb : ∀ d ∈ draws, d < 1000000)
    (hgen : _generate_unique_ticket_id store draws = some tid) :
    ∃ store',
      handle_feedback store draws now message NEGATIVE_FEEDBACK cn cid =
        some (.ok ({ reply := negativeReply (cn.getD ("Valued Customer".toList)) tid,
                     ticket_id := some tid, sentiment := NEGATIVE_FEEDBACK }, store')) ∧
      store' = store ++ [{ ticket_id := tid, customer_name := cn, message := message,
                           status := "Open".toList, created_at := now, updated_at := now,
                           correlation_id := cid }] ∧
      tid.length = 6 ∧ tid.all Char.isDigit = true ∧
      containsSub (negativeReply (cn.getD ("Valued Customer".toList)) tid) tid = true := by
  obtain ⟨hfree, d, hd, hpad⟩ := generate_spec hgen
  refine ⟨_, handle_feedback_negative_spec hgen, rfl, ?_, ?_, ?_⟩
  · rw [hpad]; exact pad6_length d
  · rw [hpad]; exact pad6_all_digits d
  · have hshape : negativeReply (cn.getD ("Valued Customer".toList)) tid =
        (("We're really sorry to hear about your experience, ".toList ++
          cn.getD ("Valued Customer".toList)) ++
         ". I've created a support ticket for you: #".toList) ++ tid ++
        ". Our team will review this and get back to you as soon as possible.".toList := by
      simp [negativeReply]
    rw [hshape]
    exact containsSub_sandwich _ _ _

/-- C6 at a concrete input. -/
theorem handle_feedback_negative_creates_ticket_witness :
    ∃ store',
      handle_feedback [] [42] ("T0".toList) ("ATM ate my card".toList) NEGATIVE_FEEDBACK
          none none =
        some (.ok ({ reply := negativeReply (Option.getD none ("Valued Customer".toList))
                       (pad6 42),
                     ticket_id := some (pad6 42), sentiment := NEGATIVE_FEEDBACK }, store')) ∧
      store' = [] ++ [{ ticket_id := pad6 42, customer_name := none,
                        message := "ATM ate my card".toList, status := "Open".toList,
                        created_at := "T0".toList, updated_at := "T0".toList,
                        correlation_id := none }] ∧
      (pad6 42).length = 6 ∧ (pad6 42).all Char.isDigit = true ∧
      containsSub (negativeReply (Option.getD none ("Valued Customer".toList)) (pad6 42))
        (pad6 42) = true :=
  handle_feedback_negative_creates_ticket [] [42] ("T0".toList) ("ATM ate my card".toList)
    (pad6 42) none none (by decide) rfl

/-- C9: `create_ticket` persists the correlation id on the stored row, but
the dict returned by `get_ticket` contains exactly the six selected
columns — `correlation_id` is never among its keys. -/
theorem get_ticket_omits_correlation_id (store : Store) (tid msg now cid : Str)
    (cn : Option Str) (store' : Store)
    (h : create_ticket store tid msg cn (some cid) now = .ok store') :
    (∃ t, getTicketRow store' tid = some t ∧ t.correlation_id = some cid) ∧
    (∀ tid2 row, get_ticket store' tid2 = some row →
       row.map Prod.fst =
         ["ticket_id", "customer_name", "message", "status", "created_at", "updated_at"]) := by
  obtain ⟨habs, rfl⟩ := getTicketRow_create h
  constructor
  · exact ⟨_, getTicketRow_append_fresh habs rfl, rfl⟩
  · intro tid2 row hrow
    unfold get_ticket at hrow
    cases hr : getTicketRow
        (store ++ [{ ticket_id := tid, customer_name := cn, message := msg,
                     status := "Open".toList, created_at := now, updated_at := now,
                     correlation_id := some cid }]) tid2 with
    | none => rw [hr] at hrow; cases hrow
    | some t =>
      rw [hr] at hrow
      have hr2 : row = ticketDict t := by
        have h3 : some (ticketDict t) = some row := hrow
        cases h3
        rfl
      rw [hr2]
      rfl

/-- C9 at a concrete input: a ticket created with correlation id `"c1"`. -/
theorem get_ticket_omits_correlation_id_witness :
    (∃ t, getTicketRow
        [{ ticket_id := "123456".toList, customer_name := none, message := "m".toList,
           status := "Open".toList, created_at := "T0".toList, updated_at := "T0".toList,
           correlation_id := some ("c1".toList) }] ("123456".toList) = some t ∧
       t.correlation_id = some ("c1".toList)) ∧
    (∀ tid2 row, get_ticket
        [{ ticket_id := "123456".toList, customer_name := none, message := "m".toList,
           status := "Open".toList, created_at := "T0".toList, updated_at := "T0".toList,
           correlation_id := some ("c1".toList) }] tid2 = some row →
       row.map Prod.fst =
         ["ticket_id", "customer_name", "message", "status", "created_at", "updated_at"]) :=
  get_ticket_omits_correlation_id [] ("123456".toList) ("m".toList) ("T0".toList)
    ("c1".toList) none _ rfl

/-- C7: if no position of the message carries a six-digit run bounded by
word boundaries, `handle_query` returns `found=false`, no ticket id, and
the reply asking for a 6-digit id; otherwise the leftmost such run is the
id used for the lookup. -/
theorem handle_query_extraction (store : Store) (message : Str) :
    ((∀ i < message.length, matchesAt message i = false) →
       handle_query store message =
         { reply := noTicketReply, ticket_id := none, found := false }) ∧
    (∀ i, matchesAt message i = true → (∀ j < i, matchesAt message j = false) →
       (handle_query store message).ticket_id = some ((message.drop i).take 6) ∧
       (handle_query store message).found =
         (get_ticket store ((message.drop i).take 6)).isSome) := by
  constructor
  · intro h
    unfold handle_query
    rw [extract_none_of_no_match h]
    rfl
  · intro i hi hmin
    have hex : _extract_ticket_id message = some ((message.drop i).take 6) :=
      extract_some_of_first_match hi hmin
    have hlen : ((message.drop i).take 6).length = 6 := by
      simp only [matchesAt, sixDigitRunAt, Bool.and_eq_true, beq_iff_eq] at hi
      exact hi.2.1.1
    have hne : ((message.drop i).take 6).isEmpty = false := by
      rcases hh : (message.drop i).take 6 with _ | ⟨c, r⟩
      · rw [hh] at hlen; cases hlen
      · rfl
    cases hg : get_ticket store ((message.drop i).take 6) with
    | none => simp [handle_query, hex, hne, hg]
    | some row => simp [handle_query, hex, hne, hg]

/-- C7 at concrete inputs: a message with no six-digit run, and a message
with two runs where the leftmost (`123456`) is used. -/
theorem handle_query_extraction_witness :
    handle_query [] ("Can you help me?".toList) =
      { reply := noTicketReply, ticket_id := none, found := false } ∧
    (handle_query [] ("ticket 123456 or 654321".toList)).ticket_id =
      some ((("ticket 123456 or 654321".toList).drop 7).take 6) :=
  ⟨(handle_query_extraction [] ("Can you help me?".toList)).1 (by decide),
   ((handle_query_extraction [] ("ticket 123456 or 654321".toList)).2 7 (by decide)
      (by decide)).1⟩

/-- C3: the graph runner returns a result carrying every field of the
final state — reply, ticket_id, classification, handled_by,
correlation_id, processed_at — with `processed_at` stamped with the
handler-node clock reading and `handled_by` naming the handler the router
selected for the classification. -/
theorem run_support_graph_fields (llmRaw : Option Str) (draws : List Nat)
    (uuid4 now : Str) (store : Store) (message : Str) (cn : Option Str)
    (hgen : ∃ tid0, _generate_unique_ticket_id store draws = some tid0) :
    ∃ res store',
      run_support_graph llmRaw draws uuid4 now store message cn =
        some (.ok (res, store')) ∧
      res.processed_at = now ∧
      res.correlation_id = "cs-".toList ++ uuid4 ∧
      res.classification = ClassifierAgent.classify_message llmRaw message true ∧
      res.message = message ∧ res.customer_name = cn ∧
      ((res.classification = POSITIVE_FEEDBACK ∨
        res.classification = NEGATIVE_FEEDBACK) →
        res.handled_by = "FeedbackAgent".toList) ∧
      (res.classification = QUERY → res.handled_by = "QueryAgent".toList) ∧
      (res.handled_by = "FeedbackAgent".toList ∨
       res.handled_by = "QueryAgent".toList) := by
  obtain ⟨tid0, hgen⟩ := hgen
  have hnePQ : ¬(POSITIVE_FEEDBACK = QUERY) := by decide
  have hneNQ : ¬(NEGATIVE_FEEDBACK = QUERY) := by decide
  have hneQ : ¬(QUERY = POSITIVE_FEEDBACK ∨ QUERY = NEGATIVE_FEEDBACK) := by decide
  rcases classify_mem llmRaw message true with hcls | hcls | hcls
  · have hfb : handle_feedback store draws now message POSITIVE_FEEDBACK cn
        (some ("cs-".toList ++ uuid4)) =
        some (.ok ({ reply := positiveReply (cn.getD ("Valued Customer".toList)),
                     ticket_id := none, sentiment := POSITIVE_FEEDBACK }, store)) := by
      unfold handle_feedback
      rw [if_pos (by decide)]
    have hrun : run_support_graph llmRaw draws uuid4 now store message cn =
        some (.ok ({ message := message, customer_name := cn,
                     correlation_id := "cs-".toList ++ uuid4,
                     classification := POSITIVE_FEEDBACK,
                     handled_by := "FeedbackAgent".toList, ticket_id := none,
                     reply := positiveReply (cn.getD ("Valued Customer".toList)),
                     processed_at := now }, store)) := by
      simp only [run_support_graph]
      rw [hcls, if_pos (by decide), hfb]
    exact ⟨_, _, hrun, rfl, rfl, hcls.symm, rfl, rfl, fun _ => rfl,
      fun hq => absurd hq hnePQ, Or.inl rfl⟩
  · have hrun : run_support_graph llmRaw draws uuid4 now store message cn =
        some (.ok ({ message := message, customer_name := cn,
                     correlation_id := "cs-".toList ++ uuid4,
                     classification := NEGATIVE_FEEDBACK,
                     handled_by := "FeedbackAgent".toList, ticket_id := some tid0,
                     reply := negativeReply (cn.getD ("Valued Customer".toList)) tid0,
                     processed_at := now },
                   store ++ [{ ticket_id := tid0, customer_name := cn, message := message,
                               status := "Open".toList, created_at := now,
                               updated_at := now,
                               correlation_id := some ("cs-".toList ++ uuid4) }])) := by
      simp only [run_support_graph]
      rw [hcls, if_pos (by decide), handle_feedback_negative_spec hgen]
    exact ⟨_, _, hrun, rfl, rfl, hcls.symm, rfl, rfl, fun _ => rfl,
      fun hq => absurd hq hneNQ, Or.inl rfl⟩
  · have hrun : run_support_graph llmRaw draws uuid4 now store message cn =
        some (.ok ({ message := message, customer_name := cn,
                     correlation_id := "cs-".toList ++ uuid4,
                     classification := QUERY,
                     handled_by := "QueryAgent".toList,
                     ticket_id := (handle_query store message).ticket_id,
                     reply := (handle_query store message).reply,
                     processed_at := now }, store)) := by
      simp only [run_support_graph]
      rw [hcls, if_neg (by decide)]
    exact ⟨_, _, hrun, rfl, rfl, hcls.symm, rfl, rfl,
      fun hq => absurd hq hneQ, fun _ => rfl, Or.inr rfl⟩

/-- C3 at a concrete input. -/
theorem run_support_graph_fields_witness :
    ∃ res store',
      run_support_graph none [7] ("u1".toList) ("T0".toList) [] ("hello".toList) none =
        some (.ok (res, store')) ∧
      res.processed_at = "T0".toList ∧
      res.correlation_id = "cs-".toList ++ "u1".toList ∧
      res.classification = ClassifierAgent.classify_message none ("hello".toList) true ∧
      res.message = "hello".toList ∧ res.customer_name = none ∧
      ((res.classification = POSITIVE_FEEDBACK ∨
        res.classification = NEGATIVE_FEEDBACK) →
        res.handled_by = "FeedbackAgent".toList) ∧
      (res.classification = QUERY → res.handled_by = "QueryAgent".toList) ∧
      (res.handled_by = "FeedbackAgent".toList ∨
       res.handled_by = "QueryAgent".toList) :=
  run_support_graph_fields none [7] ("u1".toList) ("T0".toList) [] ("hello".toList) none
    ⟨pad6 7, rfl⟩

end BankingSupport
